import Mathlib

/-!
Verification of the Karma_AI surprise-box reward engine.

This file gives a shallow embedding of the decision core of the repository
(`api/reward_engine.py` and `api/db_manager.py`) and proves properties of it.

Modelling conventions:
* Python dicts over string keys are association lists (first match wins; the
  embedded dicts never carry duplicate keys).
* Python ints are `Int`, Python floats (probabilities, weights, multipliers)
  are `ℚ` with exact arithmetic.
* Python exceptions are `Except String`; the blanket `except Exception` in
  `check_surprise_box` is the top-level catch of `check_surprise_box` below.
* The trained classifier (a pickled model, an external collaborator), the md5
  hash used for seeds, and the pseudo-random index drawn by
  `random.choice`/`rng.choices` are opaque deterministic functions supplied as
  parameters of the `Engine` structure: the source derives each of them from
  a seed that is itself a deterministic function of `(user_id, date)`.
-/

namespace Karma

/-- Association-list lookup, modelling Python `dict[key]` / `dict.get(key)`. -/
def alookup {α : Type} (l : List (String × α)) (k : String) : Option α :=
  (l.find? (fun p => p.1 == k)).map (·.2)

/-- Modelling Python `key in dict`. -/
def hasKey {α : Type} (l : List (String × α)) (k : String) : Bool :=
  (alookup l k).isSome

/-- A user's daily metrics: Python dict from metric name to int. -/
abbrev Metrics := List (String × Int)

/-- `metrics.get(variable, 0)`: missing keys default to 0. -/
def metricsGet (m : Metrics) (k : String) : Int :=
  (alookup m k).getD 0

/-- `MODEL_FEATURE_KEYS` from reward_engine.py. -/
def MODEL_FEATURE_KEYS : List String :=
  ["login_streak", "posts_created", "comments_written", "upvotes_received",
   "quizzes_completed", "buddies_messaged", "karma_spent", "karma_earned_today"]

/-- A parsed condition expression: the tuples produced by `parse_condition`.
`cmp v op n` is the Python tuple `(v, op, n)`; `and`/`or` are the tuples
`('and', l, r)` / `('or', l, r)`. -/
inductive Expr : Type where
  | cmp (v : String) (op : String) (value : Int)
  | and (left right : Expr)
  | or (left right : Expr)
deriving DecidableEq, Repr

/-- Word characters of the regex class `\w`. -/
def isWordChar (c : Char) : Bool := c.isAlphanum || c == '_'

/-- Character-level transcription of `tokenize_condition`'s regex scan
`(\w+)|(>=|<=|==|!=|>|<)|(\(|\))|(and|or|not\b)|(\d+)`: `re.finditer` takes at
each position the first alternative that matches (`\w+` is maximal and wins on
any word character, so the `and`/`or`/`not` and `\d+` alternatives are
subsumed), and characters that match nothing are skipped. -/
def tokenizeAux (fuel : Nat) : List Char → List String
  | [] => []
  | c :: cs =>
    match fuel with
    | 0 => []
    | f + 1 =>
      if isWordChar c then
        String.mk (c :: cs.takeWhile isWordChar) :: tokenizeAux f (cs.dropWhile isWordChar)
      else if c == '>' || c == '<' || c == '=' || c == '!' then
        match cs with
        | '=' :: cs2 => String.mk [c, '='] :: tokenizeAux f cs2
        | cs1 =>
          if c == '>' || c == '<' then String.mk [c] :: tokenizeAux f cs1
          else tokenizeAux f cs1
      else if c == '(' || c == ')' then String.mk [c] :: tokenizeAux f cs
      else tokenizeAux f cs

/-- `tokenize_condition` from reward_engine.py. The fuel `length + 1` is never
exhausted: every step of `tokenizeAux` consumes at least one character. -/
def tokenize_condition (condition_str : String) : List String :=
  tokenizeAux (condition_str.toList.length + 1) condition_str.toList

/-- The comparison operators accepted by `parse_atomic_condition`. -/
def ATOMIC_OPS : List String := [">=", "<=", "==", "<", ">"]

/-- Python `int(s)` on a string of decimal digits. -/
def digitsToNat (l : List Char) : Nat :=
  l.foldl (fun n c => 10 * n + (c.toNat - 48)) 0

/-- `parse_atomic_condition` from reward_engine.py: `some (expr, next_index)`
on success, `none` when the three tokens at `start_idx` are not
`METRIC_NAME OP DIGITS` (the source returns `(None, start_idx)`). -/
def parse_atomic_condition (tokens : List String) (start_idx : Nat) :
    Option (Expr × Nat) :=
  if start_idx + 2 ≥ tokens.length then none
  else
    let var_token := tokens.getD start_idx ""
    let op_token := tokens.getD (start_idx + 1) ""
    let val_token := tokens.getD (start_idx + 2) ""
    if MODEL_FEATURE_KEYS.contains var_token && ATOMIC_OPS.contains op_token
        && !val_token.isEmpty && val_token.toList.all Char.isDigit then
      some (Expr.cmp var_token op_token (digitsToNat val_token.toList), start_idx + 3)
    else none

/-- The five mutually recursive entry points of the source's recursive-descent
parser, collapsed into one fuelled function: `expr` is
`parse_condition_recursive`, `orL l` its `while ... 'or'` loop, `term` is
`parse_term`, `andL l` its `while ... 'and'` loop, `factor` is
`parse_factor`. -/
inductive PMode : Type where
  | expr : PMode
  | orL (left_expr : Expr) : PMode
  | term : PMode
  | andL (left_expr : Expr) : PMode
  | factor : PMode

/-- The recursive-descent parser of reward_engine.py
(`parse_condition_recursive` / `parse_term` / `parse_factor`):
`expr := term ('or' term)*` with each `or` recursing into the remainder
(right-associative), `term := factor ('and' factor)*` folded left, and
`factor := '(' expr ')' | comparison`. `parse_factor` raises (here:
`Except.error`) on unexpected end of expression, on a missing closing
parenthesis, and on an invalid atomic condition. The `fuel` argument bounds
recursion depth; `parse_condition` passes enough fuel that it is never
exhausted (each fuel step either consumes a token or moves down the
three-level grammar). -/
def parse_run (fuel : Nat) (mode : PMode) (tokens : List String) (idx : Nat) :
    Except String (Expr × Nat) :=
  match fuel with
  | 0 => Except.error "fuel exhausted"
  | f + 1 =>
    match mode with
    | PMode.expr => do
      let (left_expr, j) ← parse_run f PMode.term tokens idx
      parse_run f (PMode.orL left_expr) tokens j
    | PMode.orL left_expr =>
      if idx < tokens.length && tokens.getD idx "" == "or" then do
        let (right_expr, j) ← parse_run f PMode.expr tokens (idx + 1)
        parse_run f (PMode.orL (Expr.or left_expr right_expr)) tokens j
      else Except.ok (left_expr, idx)
    | PMode.term => do
      let (left_expr, j) ← parse_run f PMode.factor tokens idx
      parse_run f (PMode.andL left_expr) tokens j
    | PMode.andL left_expr =>
      if idx < tokens.length && tokens.getD idx "" == "and" then do
        let (right_expr, j) ← parse_run f PMode.factor tokens (idx + 1)
        parse_run f (PMode.andL (Expr.and left_expr right_expr)) tokens j
      else Except.ok (left_expr, idx)
    | PMode.factor =>
      if idx ≥ tokens.length then Except.error "Unexpected end of expression"
      else if tokens.getD idx "" == "(" then do
        let (expr, j) ← parse_run f PMode.expr tokens (idx + 1)
        if j ≥ tokens.length || tokens.getD j "" != ")" then
          Except.error "Missing closing parenthesis"
        else Except.ok (expr, j + 1)
      else
        match parse_atomic_condition tokens idx with
        | some (atomic, j) => Except.ok (atomic, j)
        | none => Except.error "Invalid atomic condition"

/-- `parse_condition_recursive` from reward_engine.py. -/
def parse_condition_recursive (fuel : Nat) (tokens : List String) (start_idx : Nat) :
    Except String (Expr × Nat) :=
  parse_run fuel PMode.expr tokens start_idx

/-- `parse_condition` from reward_engine.py: `none` models both the explicit
`return None` cases and the `except` clause that turns a parse `ValueError`
into `None`. The fuel `4 * tokens.length + 8` strictly dominates the
recursion depth of the source's parser on any token list. -/
def parse_condition (condition_str : String) : Option Expr :=
  if condition_str.toList.all Char.isWhitespace then none
  else
    let tokens := tokenize_condition condition_str
    if tokens.isEmpty then none
    else
      match parse_condition_recursive (4 * tokens.length + 8) tokens 0 with
      | Except.ok (expr, _) => some expr
      | Except.error _ => none

/-- `evaluate_expression` from reward_engine.py. Comparison nodes are only
evaluated when their variable is a recognised metric name; unknown operators
and non-metric heads raise `ValueError`. `and`/`or` short-circuit. -/
def evaluate_expression (expr : Expr) (metrics : Metrics) : Except String Bool :=
  match expr with
  | Expr.cmp v op value =>
    if MODEL_FEATURE_KEYS.contains v then
      let metric_value := metricsGet metrics v
      if op == ">=" then Except.ok (decide (metric_value ≥ value))
      else if op == "<=" then Except.ok (decide (metric_value ≤ value))
      else if op == "==" then Except.ok (decide (metric_value = value))
      else if op == "<" then Except.ok (decide (metric_value < value))
      else if op == ">" then Except.ok (decide (metric_value > value))
      else Except.error ("Unknown operator: " ++ op)
    else Except.error "Invalid expression"
  | Expr.and left right => do
    let lv ← evaluate_expression left metrics
    if lv then evaluate_expression right metrics else Except.ok false
  | Expr.or left right => do
    let lv ← evaluate_expression left metrics
    if lv then Except.ok true else evaluate_expression right metrics

/-- `check_condition` from reward_engine.py: `False` on `None` and on any
evaluation error. -/
def check_condition (metrics : Metrics) (parsed_condition : Option Expr) : Bool :=
  match parsed_condition with
  | none => false
  | some e =>
    match evaluate_expression e metrics with
    | Except.ok b => b
    | Except.error _ => false

/-- The shapes a value of `config['reward_rules']` can take (main.py accepts
`Union[RewardRule, List[str], str]`): a dict with a `conditions` key, a bare
list of condition strings, or a single condition string. -/
inductive RuleData : Type where
  | dictConds (conditions : List String)
  | listConds (conditions : List String)
  | single (condition : String)
deriving DecidableEq, Repr

/-- A `config['box_types']` entry. Weights are `ℚ` standing for the exact
values of the source's floats. -/
structure BoxType : Type where
  name : String
  base_karma : Int
  rarity_weights : List (String × ℚ)
deriving DecidableEq

/-- The validated configuration (`RewardEngine._load_config`): the required
fields of config.json. Dicts preserve Python insertion order. -/
structure Config : Type where
  reward_probability_threshold : ℚ
  reward_rules : List (String × RuleData)
  box_types : List (String × BoxType)
  karma_min : Int
  karma_max : Int
deriving DecidableEq

/-- One row of the `user_rewards` table of db_manager.py
(`date`, `user_id`, `box_type`); the `timestamp` column is never read by the
decision logic and is omitted. -/
structure Entry : Type where
  date : String
  user_id : String
  box_type : String
deriving DecidableEq, Repr

/-- The `user_rewards` table, in insertion order. -/
abbrev Ledger := List Entry

/-- Whether a row with the primary key `(date, user_id)` exists. -/
def hasKeyEntry (l : Ledger) (date user_id : String) : Bool :=
  l.any (fun e => e.date == date && e.user_id == user_id)

/-- `DatabaseManager.add_rewarded_user`: a plain
`INSERT INTO user_rewards (date, user_id, box_type) VALUES (?, ?, ?)` against
the schema `PRIMARY KEY (date, user_id)` of `_init_db`. When a row with the
same key already exists, SQLite rejects the insert with an `IntegrityError`
(modelled as `Except.error`); otherwise the row is appended. -/
def add_rewarded_user (l : Ledger) (date user_id box_type : String) :
    Except String Ledger :=
  if hasKeyEntry l date user_id then
    Except.error "UNIQUE constraint failed: user_rewards.date, user_rewards.user_id"
  else
    Except.ok (l ++ [⟨date, user_id, box_type⟩])

/-- `DatabaseManager.get_user_reward`:
`SELECT box_type ... WHERE date = ? AND user_id = ? LIMIT 1` (the unread
timestamp column is dropped). -/
def get_user_reward (l : Ledger) (date user_id : String) : Option String :=
  (l.find? (fun e => e.date == date && e.user_id == user_id)).map (·.box_type)

/-- `DatabaseManager.is_user_rewarded`: true iff a reward row exists for the
date and user and its `box_type` equals the queried one. -/
def is_user_rewarded (l : Ledger) (date user_id box_type : String) : Bool :=
  match get_user_reward l date user_id with
  | some bt => bt == box_type
  | none => false

/-- `DatabaseManager.cleanup_old_entries`:
`DELETE FROM user_rewards WHERE date < date(?, ?)`. SQLite compares the TEXT
`date` column against the computed cutoff date string; the cutoff string is a
parameter here. -/
def cleanup_old_entries (l : Ledger) (cutoff : String) : Ledger :=
  l.filter (fun e => !(e.date < cutoff : Bool))

/-- The engine with its opaque deterministic collaborators:
* `config` is the validated config.json contents;
* `md5seed s` is `int(hashlib.md5(s.encode()).hexdigest()[:8], 16)`, an
  opaque deterministic hash used by `_get_deterministic_seed` and by the
  tie-break of `_determine_box_type` (both hash the same
  `user_id + "_" + date` string);
* `choiceIdx seed n` is the index drawn by `random.choice` from a list of
  length `n` after `random.seed(seed)` (tie-break in `_determine_box_type`);
* `choicesIdx seed ws` is the index drawn by
  `random.Random(seed).choices(..., weights=ws, k=1)` in `_calculate_rarity`
  (`random.choices` depends on the candidate list only through the weights
  and the generator stream);
* `predictProba m date` is `self.model.predict_proba(self._prepare_features(
  m, date))[0][1]`: the trained classifier (an external collaborator, a pure
  function of the features, which are a pure function of the metrics and the
  date) composed with the feature builder; `Except.error` covers an oracle
  failure such as a feature-shape mismatch or an unparseable date. -/
structure Engine : Type where
  config : Config
  md5seed : String → Nat
  choiceIdx : Nat → Nat → Nat
  choicesIdx : Nat → List ℚ → Nat
  predictProba : Metrics → String → Except String ℚ

/-- `RewardEngine._get_deterministic_seed`. -/
def _get_deterministic_seed (E : Engine) (user_id date : String) : Nat :=
  E.md5seed (user_id ++ "_" ++ date)

/-- `RewardEngine._evaluate_rule`: all conditions of the rule must hold.
Empty/whitespace condition strings are skipped; a condition that fails to
parse makes the rule evaluate to `False`; evaluation errors are absorbed by
`check_condition`. -/
def _evaluate_rule (rule_data : RuleData) (metrics : Metrics) : Bool :=
  let conditions :=
    match rule_data with
    | RuleData.dictConds cs => cs
    | RuleData.listConds cs => cs
    | RuleData.single c => [c]
  evalConds conditions metrics
where
  /-- The `for condition in conditions` loop body of `_evaluate_rule`. -/
  evalConds : List String → Metrics → Bool
    | [], _ => true
    | c :: rest, m =>
      if c.toList.all Char.isWhitespace then evalConds rest m
      else
        match parse_condition c with
        | none => false
        | some parsed =>
          if check_condition m (some parsed) then evalConds rest m else false

/-- The count `num_conditions` computed in `_determine_box_type`: the length
of the rule's `conditions` list, or 1 when the rule is a bare single
condition rather than a list. -/
def num_conditions : RuleData → Nat
  | RuleData.dictConds cs => cs.length
  | RuleData.listConds cs => cs.length
  | RuleData.single _ => 1

/-- The `matched_rules` list of `_determine_box_type`: every rule of the
catalog whose conditions all hold, paired with its `num_conditions`, in
catalog order. -/
def matched_rules (cfg : Config) (metrics : Metrics) : List (String × Nat) :=
  cfg.reward_rules.filterMap
    (fun p => if _evaluate_rule p.2 metrics then some (p.1, num_conditions p.2) else none)

/-- Stable insert for `sort_matched_desc`. -/
def insertDesc (x : String × Nat) : List (String × Nat) → List (String × Nat)
  | [] => [x]
  | y :: ys => if y.2 > x.2 then y :: insertDesc x ys else x :: y :: ys

/-- `matched_rules.sort(key=lambda x: x[1], reverse=True)`: Python's sort is
stable, and a stable sort is a unique function of the input list, so this
stable insertion sort computes the same list. -/
def sort_matched_desc : List (String × Nat) → List (String × Nat)
  | [] => []
  | x :: xs => insertDesc x (sort_matched_desc xs)

/-- `RewardEngine._determine_box_type`. The metrics dict is augmented by the
caller with the string values `user_id` and `date`; condition evaluation
never reads them (`parse_atomic_condition` admits only `MODEL_FEATURE_KEYS`
variables), so they are threaded as the explicit arguments `user_id` and
`date`, used only by the tie-break seed
`f"{metrics.get('user_id', '')}_{metrics.get('date', '')}"`. -/
def _determine_box_type (E : Engine) (metrics : Metrics) (user_id date : String) :
    String :=
  let matched := matched_rules E.config metrics
  if matched.isEmpty then "mystery"
  else
    let sorted := sort_matched_desc matched
    let max_conditions := (sorted.headD ("", 0)).2
    let best_matches := sorted.filter (fun r => r.2 == max_conditions)
    if best_matches.length > 1 then
      let seed := E.md5seed (user_id ++ "_" ++ date)
      (best_matches.getD (E.choiceIdx seed best_matches.length) ("", 0)).1
    else (best_matches.headD ("", 0)).1

/-- `RewardEngine._calculate_rarity`. Unknown box types fall back to
`mystery`; if `mystery` is itself not configured, the subscript raises
`KeyError`. Weights are scaled by `(1 + prediction_probability)` and
renormalised (`w / total` raises `ZeroDivisionError` when the total is zero),
and the rarity is drawn from the box's rarity names by the seeded generator. -/
def _calculate_rarity (E : Engine) (box_type : String) (prediction_probability : ℚ)
    (seed : Nat) : Except String String :=
  let bt := if hasKey E.config.box_types box_type then box_type else "mystery"
  match alookup E.config.box_types bt with
  | none => Except.error ("KeyError: " ++ bt)
  | some box_config =>
    let weights := box_config.rarity_weights.map (·.2)
    let adjusted_weights := weights.map (fun w => w * (1 + prediction_probability))
    let total := adjusted_weights.sum
    if total = 0 then Except.error "float division by zero"
    else
      let normalized := adjusted_weights.map (fun w => w / total)
      let rarities := box_config.rarity_weights.map (·.1)
      Except.ok (rarities.getD (E.choicesIdx seed normalized) "")

/-- The `rarity_multipliers` dict of `_calculate_reward_karma`. -/
def rarity_multipliers : List (String × ℚ) :=
  [("common", 1), ("rare", 5/4), ("elite", 3/2), ("legendary", 2)]

/-- Python `int(x)`: truncation of the exact rational toward zero. -/
def intTrunc (q : ℚ) : Int := Int.tdiv q.num (q.den : Int)

/-- `RewardEngine._calculate_reward_karma`. Unknown box types fall back to
`mystery` (a missing `mystery` box config raises `KeyError`, as does a rarity
outside the four keys of `rarity_multipliers`). The activity bonus is
`1 + (mean of metric values / 100) * 0.5` (0 for an empty dict), the karma is
truncated to an int and clamped into `[karma_min, karma_max]`. -/
def _calculate_reward_karma (cfg : Config) (box_type rarity : String)
    (metrics : Metrics) : Except String Int :=
  let bt := if hasKey cfg.box_types box_type then box_type else "mystery"
  match alookup cfg.box_types bt with
  | none => Except.error ("KeyError: " ++ bt)
  | some box_config =>
    match alookup rarity_multipliers rarity with
    | none => Except.error ("KeyError: " ++ rarity)
    | some mult =>
      let activity_score : ℚ :=
        if metrics.isEmpty then 0
        else ((metrics.map (·.2)).sum : ℚ) / (metrics.length : ℚ)
      let activity_bonus : ℚ := 1 + (activity_score / 100) * (1/2)
      let karma := intTrunc ((box_config.base_karma : ℚ) * mult * activity_bonus)
      Except.ok (max cfg.karma_min (min cfg.karma_max karma))

/-- The `box_type_reasons` dict set in `RewardEngine.__init__`. -/
def box_type_reasons : List (String × String) :=
  [("streak_engager", "Consistent logins + content and quiz activity"),
   ("quiz_enthusiast", "Frequent quizzes + regular logins"),
   ("community_champion", "High-quality posts + community engagement"),
   ("knowledge_contributor", "Active learning + high karma earned"),
   ("social_butterfly", "Active messaging + content contributions"),
   ("balanced_contributor", "Posts and comments + social and karma activity"),
   ("karma_trader", "Karma spent + karma earned"),
   ("rising_star", "New user + strong early engagement"),
   ("creative_scholar", "Creative posts + quiz participation"),
   ("community_glue", "Community messaging + karma sharing"),
   ("active_supporter", "Consistent logins + karma contributions"),
   ("mystery_enthusiast", "Quiz enthusiasm + content creation"),
   ("quiz_completion", "Quiz completion + learning effort")]

/-- The result dict of `check_surprise_box`: fields absent from a given
outcome are `none`. -/
structure Decision : Type where
  user_id : String
  surprise_unlocked : Bool
  reward_karma : Option Int := none
  box_type : Option String := none
  box_name : Option String := none
  rarity : Option String := none
  status : String
  reason : String
deriving DecidableEq, Repr

/-- The tail of `check_surprise_box` after the probability gate: rarity,
karma, display name, ledger commit (`add_rewarded_user`), reason lookup, and
the `delivered` result. Any raised error escapes to the caller's catch. -/
def valuate_commit (E : Engine) (l : Ledger) (user_id date : String)
    (daily_metrics : Metrics) (box_type : String) (p : ℚ) (seed : Nat) :
    Except String (Decision × Ledger) := do
  let rarity ← _calculate_rarity E box_type p seed
  let reward_karma ← _calculate_reward_karma E.config box_type rarity daily_metrics
  let box_name := ((alookup E.config.box_types box_type).map (·.name)).getD "Mystery Box"
  let l2 ← add_rewarded_user l date user_id box_type
  let reason := (alookup box_type_reasons box_type).getD "For your activity and engagement!"
  Except.ok
    ({ user_id := user_id, surprise_unlocked := true,
       reward_karma := some reward_karma, box_type := some box_type,
       box_name := some box_name, rarity := some rarity,
       status := "delivered", reason := reason }, l2)

/-- The `try` body of `RewardEngine.check_surprise_box`: seed derivation,
box-type resolution on the metadata-augmented metrics, the `already_received`
pre-check, the model probability and its threshold gate, and
`valuate_commit`. -/
def checkSurpriseBoxE (E : Engine) (l : Ledger) (user_id date : String)
    (daily_metrics : Metrics) : Except String (Decision × Ledger) := do
  let seed := _get_deterministic_seed E user_id date
  let box_type := _determine_box_type E daily_metrics user_id date
  if is_user_rewarded l date user_id box_type then
    Except.ok
      ({ user_id := user_id, surprise_unlocked := false,
         status := "already_received",
         reason := "User already received a " ++ box_type ++ " reward today" }, l)
  else do
    let prediction_probability ← E.predictProba daily_metrics date
    if prediction_probability < E.config.reward_probability_threshold then
      Except.ok
        ({ user_id := user_id, surprise_unlocked := false, status := "missed",
           reason := "Activity level below reward threshold" }, l)
    else
      valuate_commit E l user_id date daily_metrics box_type
        prediction_probability seed

/-- `RewardEngine.check_surprise_box`: the `try` body with its blanket
`except Exception` handler, which returns the `error` decision and leaves the
ledger untouched. -/
def check_surprise_box (E : Engine) (l : Ledger) (user_id date : String)
    (daily_metrics : Metrics) : Decision × Ledger :=
  match checkSurpriseBoxE E l user_id date daily_metrics with
  | Except.ok r => r
  | Except.error e =>
    ({ user_id := user_id, surprise_unlocked := false, status := "error",
       reason := "Error processing request: " ++ e }, l)

/-- Following the spec's wording, for comparison with the source's
`num_conditions`: the number of leaf comparison nodes of a condition
expression tree. -/
def leafCount : Expr → Nat
  | Expr.cmp _ _ _ => 1
  | Expr.and l r => leafCount l + leafCount r
  | Expr.or l r => leafCount l + leafCount r

/-- Following the spec's wording, for comparison with the source's
`num_conditions`: a rule's specificity as the total number of leaf
comparisons over the rule's parsed condition expressions. -/
def spec_leaf_specificity (rd : RuleData) : Nat :=
  (match rd with
   | RuleData.dictConds cs => cs
   | RuleData.listConds cs => cs
   | RuleData.single c => [c]).foldl
    (fun n c =>
      n + (match parse_condition c with | some e => leafCount e | none => 0)) 0

/-- The spec's primary invariant: at most one ledger row per
`(date, user_id)` pair. -/
def KeyUnique (l : Ledger) : Prop :=
  l.Pairwise (fun a b => ¬(a.date = b.date ∧ a.user_id = b.user_id))

instance (l : Ledger) : Decidable (KeyUnique l) := by
  unfold KeyUnique; infer_instance

/-- A concrete configuration: one rule, two box types, threshold 0. -/
def cfg1 : Config :=
  { reward_probability_threshold := 0,
    reward_rules := [("boxA", RuleData.dictConds ["login_streak>=1"])],
    box_types := [("boxA", ⟨"Box A", 10, [("common", 1)]⟩),
                  ("mystery", ⟨"Mystery Box", 5, [("common", 1)]⟩)],
    karma_min := 1, karma_max := 100 }

/-- A concrete engine over `cfg1` with fixed collaborator functions. -/
def E1 : Engine :=
  { config := cfg1, md5seed := fun _ => 7, choiceIdx := fun _ _ => 0,
    choicesIdx := fun _ _ => 0, predictProba := fun _ _ => Except.ok 0 }

/-- A ledger that already holds a row for `("2024-06-09", "u1")`, awarded for
a box type other than the one `cfg1`'s rules resolve to. -/
def L1 : Ledger := [⟨"2024-06-09", "u1", "other"⟩]

/-- Metrics satisfying `cfg1`'s only rule. -/
def m1 : Metrics := [("login_streak", 1)]

/-- A concrete configuration whose resolved box type depends on the metrics:
rule `boxA` fires on logins, rule `boxB` on posts. -/
def cfg2 : Config :=
  { reward_probability_threshold := 1,
    reward_rules := [("boxA", RuleData.dictConds ["login_streak>=1"]),
                     ("boxB", RuleData.dictConds ["posts_created>=1"])],
    box_types := [("boxA", ⟨"Box A", 10, [("common", 1)]⟩),
                  ("boxB", ⟨"Box B", 10, [("common", 1)]⟩),
                  ("mystery", ⟨"Mystery Box", 5, [("common", 1)]⟩)],
    karma_min := 1, karma_max := 100 }

/-- A concrete engine over `cfg2` whose classifier output depends on the
metrics: probability 1 for an active login streak, 0 otherwise. -/
def E2 : Engine :=
  { config := cfg2, md5seed := fun _ => 7, choiceIdx := fun _ _ => 0,
    choicesIdx := fun _ _ => 0,
    predictProba := fun m _ =>
      if metricsGet m "login_streak" ≥ 1 then Except.ok 1 else Except.ok 0 }

/-- Metrics resolving to `boxA` under `cfg2`, with probability 1 under `E2`. -/
def mA : Metrics := [("login_streak", 1)]

/-- Metrics resolving to `boxB` under `cfg2`, with probability 0 under `E2`. -/
def mB : Metrics := [("posts_created", 1)]

/-- A concrete configuration where list-length specificity and leaf-count
specificity disagree: `ruleA` has one condition string with three leaf
comparisons, `ruleB` has two condition strings with one leaf each. -/
def cfg4 : Config :=
  { reward_probability_threshold := 0,
    reward_rules :=
      [("ruleA", RuleData.dictConds
          ["login_streak>=1 and posts_created>=1 and comments_written>=1"]),
       ("ruleB", RuleData.dictConds ["upvotes_received>=1", "quizzes_completed>=1"])],
    box_types := [("mystery", ⟨"Mystery Box", 5, [("common", 1)]⟩)],
    karma_min := 1, karma_max := 100 }

/-- A concrete engine over `cfg4`. -/
def E4 : Engine :=
  { config := cfg4, md5seed := fun _ => 7, choiceIdx := fun _ _ => 0,
    choicesIdx := fun _ _ => 0, predictProba := fun _ _ => Except.ok 0 }

/-- Metrics satisfying both rules of `cfg4`. -/
def m4 : Metrics :=
  [("login_streak", 1), ("posts_created", 1), ("comments_written", 1),
   ("upvotes_received", 1), ("quizzes_completed", 1)]

end Karma

deriving instance DecidableEq for Except

namespace Karma

theorem not_rewarded_of_no_key (l : Ledger) (d u bt : String)
    (h : hasKeyEntry l d u = false) : is_user_rewarded l d u bt = false := by
  have hfind : l.find? (fun e => e.date == d && e.user_id == u) = none := by
    rw [List.find?_eq_none]
    intro e he
    have := List.any_eq_false.mp h e he
    simp_all
  simp [is_user_rewarded, get_user_reward, hfind]

theorem add_rewarded_user_ok (l : Ledger) (d u bt : String)
    (h : hasKeyEntry l d u = false) :
    add_rewarded_user l d u bt = Except.ok (l ++ [⟨d, u, bt⟩]) := by
  simp [add_rewarded_user, h]

theorem add_rewarded_user_err (l : Ledger) (d u bt : String)
    (h : hasKeyEntry l d u = true) :
    add_rewarded_user l d u bt =
      Except.error "UNIQUE constraint failed: user_rewards.date, user_rewards.user_id" := by
  simp [add_rewarded_user, h]

/-- C7: the string `"login_streak>=3 and posts_created>=1"` parses to an AND
tree with exactly two leaf comparisons, which evaluates to true on
`{login_streak: 3, posts_created: 1}` and to false on
`{login_streak: 2, posts_created: 1}`. -/
theorem C7_parser_round_trip :
    parse_condition "login_streak>=3 and posts_created>=1" =
      some (Expr.and (Expr.cmp "login_streak" ">=" 3) (Expr.cmp "posts_created" ">=" 1))
  ∧ leafCount (Expr.and (Expr.cmp "login_streak" ">=" 3) (Expr.cmp "posts_created" ">=" 1)) = 2
  ∧ evaluate_expression
      (Expr.and (Expr.cmp "login_streak" ">=" 3) (Expr.cmp "posts_created" ">=" 1))
      [("login_streak", 3), ("posts_created", 1)] = Except.ok true
  ∧ evaluate_expression
      (Expr.and (Expr.cmp "login_streak" ">=" 3) (Expr.cmp "posts_created" ">=" 1))
      [("login_streak", 2), ("posts_created", 1)] = Except.ok false := by
  refine ⟨by decide, by decide, by decide, by decide⟩

/-- C6: whenever `_calculate_reward_karma` returns a value and the
configuration satisfies `karma_min ≤ karma_max`, the value lies within
`[karma_min, karma_max]`. -/
theorem C6_karma_bounds (cfg : Config) (box_type rarity : String) (metrics : Metrics)
    (v : Int) (hk : cfg.karma_min ≤ cfg.karma_max)
    (hv : _calculate_reward_karma cfg box_type rarity metrics = Except.ok v) :
    cfg.karma_min ≤ v ∧ v ≤ cfg.karma_max := by
  simp only [_calculate_reward_karma] at hv
  split at hv
  · exact absurd hv (by simp)
  · split at hv
    · exact absurd hv (by simp)
    · simp only [Except.ok.injEq] at hv
      subst hv
      constructor
      · exact le_max_left _ _
      · exact max_le hk (min_le_left _ _)

/-- C6 witness: a concrete configuration and metrics on which the theorem
applies. -/
theorem C6_karma_bounds_witness :
    cfg1.karma_min ≤ cfg1.karma_max
  ∧ _calculate_reward_karma cfg1 "boxA" "common" m1 = Except.ok 10
  ∧ cfg1.karma_min ≤ 10 ∧ 10 ≤ cfg1.karma_max := by
  have hv : _calculate_reward_karma cfg1 "boxA" "common" m1 = Except.ok 10 := by
    norm_num [_calculate_reward_karma, cfg1, m1, hasKey, alookup, rarity_multipliers, intTrunc]
    decide
  exact ⟨by decide, hv, C6_karma_bounds cfg1 "boxA" "common" m1 10 (by decide) hv⟩

/-- C3: at most one ledger row per `(date, user_id)`: the invariant holds of
the empty table, is preserved by a successful insert and by the retention
sweep, and an insert for an already-present key always fails (so a read,
which does not change the table, trivially preserves it as well). -/
theorem C3_at_most_one_entry :
    KeyUnique ([] : Ledger)
  ∧ (∀ (l l2 : Ledger) (d u bt : String), KeyUnique l →
      add_rewarded_user l d u bt = Except.ok l2 → KeyUnique l2)
  ∧ (∀ (l : Ledger) (d u bt : String), hasKeyEntry l d u = true →
      add_rewarded_user l d u bt =
        Except.error "UNIQUE constraint failed: user_rewards.date, user_rewards.user_id")
  ∧ (∀ (l : Ledger) (cutoff : String), KeyUnique l →
      KeyUnique (cleanup_old_entries l cutoff)) := by
  refine ⟨List.Pairwise.nil, ?_, add_rewarded_user_err, ?_⟩
  · intro l l2 d u bt hK hadd
    unfold add_rewarded_user at hadd
    by_cases hkey : hasKeyEntry l d u = true
    · rw [if_pos hkey] at hadd; exact absurd hadd (by simp)
    · rw [if_neg hkey] at hadd
      simp only [Except.ok.injEq] at hadd
      subst hadd
      rw [KeyUnique, List.pairwise_append]
      refine ⟨hK, List.pairwise_singleton _ _, ?_⟩
      intro a ha b hb
      have hb1 : b = (⟨d, u, bt⟩ : Entry) := by simpa using hb
      subst hb1
      have ha2 := List.any_eq_false.mp (Bool.not_eq_true _ ▸ hkey) a ha
      simp only [Bool.and_eq_true, beq_iff_eq] at ha2
      intro hcon
      exact ha2 ⟨hcon.1, hcon.2⟩
  · intro l cutoff hK
    exact hK.sublist (List.filter_sublist l)

/-- C3 witness: the invariant at concrete inputs: it holds of `L1`, a fresh
insert succeeds, and the preservation part of the theorem yields the
invariant for the extended ledger. -/
theorem C3_at_most_one_entry_witness :
    KeyUnique L1
  ∧ add_rewarded_user L1 "2024-06-10" "u1" "boxA" =
      Except.ok (L1 ++ [⟨"2024-06-10", "u1", "boxA"⟩])
  ∧ KeyUnique (L1 ++ [⟨"2024-06-10", "u1", "boxA"⟩]) :=
  ⟨by decide, by decide,
    C3_at_most_one_entry.2.1 L1 (L1 ++ [⟨"2024-06-10", "u1", "boxA"⟩])
      "2024-06-10" "u1" "boxA" (by decide) (by decide)⟩

theorem sum_map_mul (ws : List ℚ) (c : ℚ) :
    (ws.map (fun w => w * c)).sum = ws.sum * c := by
  induction ws with
  | nil => simp
  | cons w ws ih => simp [ih, add_mul]

/-- C10: the rarity drawn by `_calculate_rarity` does not depend on the
classifier probability: scaling every weight by the same positive factor
`1 + p` and renormalising yields the same normalised weight list, hence the
same draw. -/
theorem C10_rarity_independent_of_probability (E : Engine) (box_type : String)
    (seed : Nat) (p1 p2 : ℚ) (h1 : 0 ≤ p1) (h2 : p1 ≤ 1) (h3 : 0 ≤ p2) (h4 : p2 ≤ 1) :
    _calculate_rarity E box_type p1 seed = _calculate_rarity E box_type p2 seed := by
  simp only [_calculate_rarity]
  rcases hbox : alookup E.config.box_types
      (if hasKey E.config.box_types box_type then box_type else "mystery") with _ | bc
  · rfl
  · dsimp only
    have hp1 : (0 : ℚ) < 1 + p1 := by linarith
    have hp2 : (0 : ℚ) < 1 + p2 := by linarith
    set ws := bc.rarity_weights.map (·.2) with hws
    have htot1 : (ws.map (fun w => w * (1 + p1))).sum = ws.sum * (1 + p1) :=
      sum_map_mul ws (1 + p1)
    have htot2 : (ws.map (fun w => w * (1 + p2))).sum = ws.sum * (1 + p2) :=
      sum_map_mul ws (1 + p2)
    by_cases hz : ws.sum = 0
    · rw [htot1, htot2, hz, zero_mul]
      simp
    · have hnz1 : ws.sum * (1 + p1) ≠ 0 := mul_ne_zero hz (ne_of_gt hp1)
      have hnz2 : ws.sum * (1 + p2) ≠ 0 := mul_ne_zero hz (ne_of_gt hp2)
      rw [htot1, htot2, if_neg hnz1, if_neg hnz2]
      have hnorm : ∀ p : ℚ, (0 : ℚ) < 1 + p →
          ((ws.map (fun w => w * (1 + p))).map (fun w => w / (ws.sum * (1 + p)))) =
            ws.map (fun w => w / ws.sum) := by
        intro p hp
        rw [List.map_map]
        apply List.map_congr_left
        intro w _
        simp only [Function.comp_apply]
        exact mul_div_mul_right w ws.sum (ne_of_gt hp)
      rw [hnorm p1 hp1, hnorm p2 hp2]

/-- C10 witness: the theorem applied at probabilities 0 and 1 on the concrete
engine `E1`. -/
theorem C10_rarity_independent_witness :
    (0 : ℚ) ≤ 0 ∧ (0 : ℚ) ≤ 1
  ∧ _calculate_rarity E1 "boxA" 0 7 = _calculate_rarity E1 "boxA" 1 7 :=
  ⟨le_refl 0, by norm_num,
    C10_rarity_independent_of_probability E1 "boxA" 7 0 1 (le_refl 0) (by norm_num)
      (by norm_num) (le_refl 1)⟩

theorem rarity_E1_boxA : _calculate_rarity E1 "boxA" 0 7 = Except.ok "common" := by
  norm_num [_calculate_rarity, E1, cfg1, hasKey, alookup]

theorem karma_cfg1_boxA : _calculate_reward_karma cfg1 "boxA" "common" m1 = Except.ok 10 := by
  norm_num [_calculate_reward_karma, cfg1, m1, hasKey, alookup, rarity_multipliers, intTrunc]
  decide

/-- Full evaluation of `check_surprise_box` on `E1`, `L1`, `m1`: the ledger
already has a row for the key under a different box type, so the pre-check
passes, the probability gate passes (0 ≥ 0), and the commit's uniqueness
violation is caught by the blanket handler as an `error` decision. -/
theorem run1_eval :
    check_surprise_box E1 L1 "u1" "2024-06-09" m1 =
      ({ user_id := "u1", surprise_unlocked := false, status := "error",
         reason := "Error processing request: UNIQUE constraint failed: user_rewards.date, user_rewards.user_id" },
       L1) := by
  have hbt : _determine_box_type E1 m1 "u1" "2024-06-09" = "boxA" := by decide
  have hpre : is_user_rewarded L1 "2024-06-09" "u1" "boxA" = false := by decide
  have hp : E1.predictProba m1 "2024-06-09" = Except.ok 0 := rfl
  have hseed : _get_deterministic_seed E1 "u1" "2024-06-09" = 7 := rfl
  have hcfg : E1.config = cfg1 := rfl
  have hadd : add_rewarded_user L1 "2024-06-09" "u1" "boxA" =
      Except.error "UNIQUE constraint failed: user_rewards.date, user_rewards.user_id" := by
    decide
  simp only [check_surprise_box, checkSurpriseBoxE, hbt, hpre, hseed, hp, Bool.false_eq_true,
    if_false, valuate_commit, hadd]
  simp only [bind, Except.bind, hcfg]
  rw [if_neg (by norm_num [cfg1] : ¬((0 : ℚ) < cfg1.reward_probability_threshold))]
  simp only [rarity_E1_boxA, karma_cfg1_boxA]
  decide

/-- C1: for the concrete input where a ledger row for `(date, user)` already
exists under a different box type, the call passes the pre-check and the
probability gate, attempts the commit, and ends with status `error` — not
`already_received` as the spec requires. -/
theorem C1_commit_conflict_is_error :
    hasKeyEntry L1 "2024-06-09" "u1" = true
  ∧ is_user_rewarded L1 "2024-06-09" "u1" (_determine_box_type E1 m1 "u1" "2024-06-09") = false
  ∧ E1.predictProba m1 "2024-06-09" = Except.ok 0
  ∧ ¬((0 : ℚ) < E1.config.reward_probability_threshold)
  ∧ (check_surprise_box E1 L1 "u1" "2024-06-09" m1).1.status = "error"
  ∧ (check_surprise_box E1 L1 "u1" "2024-06-09" m1).1.status ≠ "already_received" := by
  refine ⟨by decide, by decide, rfl, by norm_num [E1, cfg1], ?_, ?_⟩
  · rw [run1_eval]
  · rw [run1_eval]; decide

/-- C5: with the pre-check passed and the oracle returning probability `p`:
if `p` equals the threshold exactly, the call proceeds to valuation and
commit; if `p` is below the threshold, the call ends `missed` with no ledger
write. -/
theorem C5_threshold_boundary (E : Engine) (l : Ledger) (u d : String) (m : Metrics)
    (p : ℚ)
    (hpre : is_user_rewarded l d u (_determine_box_type E m u d) = false)
    (hp : E.predictProba m d = Except.ok p) :
    (p = E.config.reward_probability_threshold →
      checkSurpriseBoxE E l u d m =
        valuate_commit E l u d m (_determine_box_type E m u d) p
          (_get_deterministic_seed E u d))
  ∧ (p < E.config.reward_probability_threshold →
      check_surprise_box E l u d m =
        ({ user_id := u, surprise_unlocked := false, status := "missed",
           reason := "Activity level below reward threshold" }, l)) := by
  constructor
  · intro he
    simp only [checkSurpriseBoxE, hpre, Bool.false_eq_true, if_false, bind, Except.bind, hp]
    rw [if_neg (by rw [he]; exact lt_irrefl _)]
  · intro hlt
    simp only [check_surprise_box, checkSurpriseBoxE, hpre, Bool.false_eq_true, if_false,
      bind, Except.bind, hp]
    rw [if_pos hlt]

/-- C5 witness: the theorem applied on the concrete engine `E1`, whose
threshold is 0, at probability 0 (both the boundary part and, vacuously
satisfiable, the below-threshold part are instantiated). -/
theorem C5_threshold_boundary_witness :
    is_user_rewarded [] "2024-06-09" "u1" (_determine_box_type E1 m1 "u1" "2024-06-09") = false
  ∧ E1.predictProba m1 "2024-06-09" = Except.ok 0
  ∧ ((0 : ℚ) = E1.config.reward_probability_threshold →
      checkSurpriseBoxE E1 [] "u1" "2024-06-09" m1 =
        valuate_commit E1 [] "u1" "2024-06-09" m1 (_determine_box_type E1 m1 "u1" "2024-06-09") 0
          (_get_deterministic_seed E1 "u1" "2024-06-09"))
  ∧ ((0 : ℚ) < E1.config.reward_probability_threshold →
      check_surprise_box E1 [] "u1" "2024-06-09" m1 =
        ({ user_id := "u1", surprise_unlocked := false, status := "missed",
           reason := "Activity level below reward threshold" }, [])) :=
  ⟨by decide, rfl,
    (C5_threshold_boundary E1 [] "u1" "2024-06-09" m1 0 (by decide) rfl).1,
    (C5_threshold_boundary E1 [] "u1" "2024-06-09" m1 0 (by decide) rfl).2⟩

/-- C8: before any ledger row exists for `(date, user)`, the decision (and in
particular category, rarity and point value) is a pure function of the engine
and the inputs: two runs from any two such ledger states agree. -/
theorem C8_two_run_determinism (E : Engine) (la lb : Ledger) (u d : String)
    (m : Metrics) (ha : hasKeyEntry la d u = false) (hb : hasKeyEntry lb d u = false) :
    (check_surprise_box E la u d m).1 = (check_surprise_box E lb u d m).1 := by
  simp only [check_surprise_box, checkSurpriseBoxE]
  rw [not_rewarded_of_no_key la d u _ ha, not_rewarded_of_no_key lb d u _ hb]
  simp only [Bool.false_eq_true, if_false, bind, Except.bind]
  cases hp : E.predictProba m d with
  | error e => rfl
  | ok p =>
    by_cases hlt : p < E.config.reward_probability_threshold
    · simp only [hlt, if_true]
    · simp only [hlt, if_false]
      unfold valuate_commit
      simp only [bind, Except.bind]
      cases hr : _calculate_rarity E (_determine_box_type E m u d) p
          (_get_deterministic_seed E u d) with
      | error e => rfl
      | ok rar =>
        dsimp only
        cases hk : _calculate_reward_karma E.config (_determine_box_type E m u d) rar m with
        | error e => rfl
        | ok k =>
          dsimp only
          rw [add_rewarded_user_ok la d u _ ha, add_rewarded_user_ok lb d u _ hb]

/-- C8 witness: the theorem applied on `E1` from the empty ledger and from a
ledger holding a row for a different user. -/
theorem C8_two_run_determinism_witness :
    hasKeyEntry ([] : Ledger) "2024-06-09" "u1" = false
  ∧ hasKeyEntry [⟨"2024-06-09", "u2", "boxA"⟩] "2024-06-09" "u1" = false
  ∧ (check_surprise_box E1 [] "u1" "2024-06-09" m1).1 =
      (check_surprise_box E1 [⟨"2024-06-09", "u2", "boxA"⟩] "u1" "2024-06-09" m1).1 :=
  ⟨by decide, by decide,
    C8_two_run_determinism E1 [] [⟨"2024-06-09", "u2", "boxA"⟩] "u1" "2024-06-09" m1
      (by decide) (by decide)⟩

theorem checkE_ok_status (E : Engine) (l : Ledger) (u d : String) (m : Metrics)
    (dec : Decision) (l2 : Ledger)
    (h : checkSurpriseBoxE E l u d m = Except.ok (dec, l2)) :
    dec.status = "already_received" ∨ dec.status = "missed" ∨ dec.status = "delivered" := by
  simp only [checkSurpriseBoxE, valuate_commit, bind, Except.bind] at h
  split at h
  · simp only [Except.ok.injEq, Prod.mk.injEq] at h
    left; rw [← h.1]
  · split at h
    · exact absurd h (by simp)
    · split at h
      · simp only [Except.ok.injEq, Prod.mk.injEq] at h
        right; left; rw [← h.1]
      · split at h
        · exact absurd h (by simp)
        · split at h
          · exact absurd h (by simp)
          · split at h
            · exact absurd h (by simp)
            · simp only [Except.ok.injEq, Prod.mk.injEq] at h
              right; right; rw [← h.1]

/-- C9: a call on which an internal step raises ends with status `error`, no
reward fields, and an unchanged ledger. (The only state change of a call is
the final conditional insert, which on failure raises without writing, and no
step after it can raise — so the catch always observes the entry state.) -/
theorem C9_unexpected_failure (E : Engine) (l : Ledger) (u d : String) (m : Metrics) :
    ((check_surprise_box E l u d m).1.status = "error" →
      (check_surprise_box E l u d m).1.surprise_unlocked = false
      ∧ (check_surprise_box E l u d m).1.reward_karma = none
      ∧ (check_surprise_box E l u d m).1.box_type = none
      ∧ (check_surprise_box E l u d m).1.box_name = none
      ∧ (check_surprise_box E l u d m).1.rarity = none
      ∧ (check_surprise_box E l u d m).2 = l)
  ∧ (∀ e, checkSurpriseBoxE E l u d m = Except.error e →
      check_surprise_box E l u d m =
        ({ user_id := u, surprise_unlocked := false, status := "error",
           reason := "Error processing request: " ++ e }, l)) := by
  constructor
  · intro hst
    rcases hres : checkSurpriseBoxE E l u d m with e | ⟨dec, l2⟩
    · unfold check_surprise_box
      rw [hres]
      exact ⟨rfl, rfl, rfl, rfl, rfl, rfl⟩
    · exfalso
      have hd : (check_surprise_box E l u d m).1 = dec := by
        unfold check_surprise_box; rw [hres]
      rw [hd] at hst
      rcases checkE_ok_status E l u d m dec l2 hres with h | h | h <;> rw [hst] at h <;>
        exact absurd h (by decide)
  · intro e hres
    unfold check_surprise_box
    rw [hres]

theorem rarity_E2_boxA : _calculate_rarity E2 "boxA" 1 7 = Except.ok "common" := by
  norm_num [_calculate_rarity, E2, cfg2, hasKey, alookup]

theorem karma_cfg2_boxA : _calculate_reward_karma cfg2 "boxA" "common" mA = Except.ok 10 := by
  norm_num [_calculate_reward_karma, cfg2, mA, hasKey, alookup, rarity_multipliers, intTrunc]
  decide

/-- Full evaluation of a first, delivering call on `E2` from the empty
ledger: metrics `mA` resolve to `boxA` with probability 1 at threshold 1. -/
theorem run2_eval :
    check_surprise_box E2 [] "u1" "2024-06-09" mA =
      ({ user_id := "u1", surprise_unlocked := true, reward_karma := some 10,
         box_type := some "boxA", box_name := some "Box A", rarity := some "common",
         status := "delivered", reason := "For your activity and engagement!" },
       [⟨"2024-06-09", "u1", "boxA"⟩]) := by
  have hbt : _determine_box_type E2 mA "u1" "2024-06-09" = "boxA" := by decide
  have hpre : is_user_rewarded [] "2024-06-09" "u1" "boxA" = false := by decide
  have hp : E2.predictProba mA "2024-06-09" = Except.ok 1 := by decide
  have hseed : _get_deterministic_seed E2 "u1" "2024-06-09" = 7 := rfl
  have hcfg : E2.config = cfg2 := rfl
  have hadd : add_rewarded_user [] "2024-06-09" "u1" "boxA" =
      Except.ok [⟨"2024-06-09", "u1", "boxA"⟩] := by decide
  simp only [check_surprise_box, checkSurpriseBoxE, hbt, hpre, hseed, hp, Bool.false_eq_true,
    if_false, valuate_commit, hadd]
  simp only [bind, Except.bind, hcfg]
  rw [if_neg (by norm_num [cfg2] : ¬((1 : ℚ) < cfg2.reward_probability_threshold))]
  simp only [rarity_E2_boxA, karma_cfg2_boxA]
  decide

/-- C2 counterexample: after a `delivered` result for `(u1, 2024-06-09)`, a
second call with different metrics — which resolve to a different box type —
returns `missed`, not `already_received`. -/
theorem C2_counterexample :
    (check_surprise_box E2 [] "u1" "2024-06-09" mA).1.status = "delivered"
  ∧ (check_surprise_box E2 (check_surprise_box E2 [] "u1" "2024-06-09" mA).2
       "u1" "2024-06-09" mB).1.status = "missed" := by
  constructor
  · rw [run2_eval]
  · rw [run2_eval]; decide

theorem checkE_ok_key_conflict (E : Engine) (l : Ledger) (u d : String) (m : Metrics)
    (dec : Decision) (l2 : Ledger) (hprev : hasKeyEntry l d u = true)
    (h : checkSurpriseBoxE E l u d m = Except.ok (dec, l2)) :
    (dec.status = "already_received" ∨ dec.status = "missed") ∧ l2 = l := by
  simp only [checkSurpriseBoxE, valuate_commit, bind, Except.bind] at h
  split at h
  · simp only [Except.ok.injEq, Prod.mk.injEq] at h
    exact ⟨Or.inl (by rw [← h.1]), h.2.symm⟩
  · split at h
    · exact absurd h (by simp)
    · split at h
      · simp only [Except.ok.injEq, Prod.mk.injEq] at h
        exact ⟨Or.inr (by rw [← h.1]), h.2.symm⟩
      · split at h
        · exact absurd h (by simp)
        · split at h
          · exact absurd h (by simp)
          · rw [add_rewarded_user_err l d u _ hprev] at h
            exact absurd h (by simp)

/-- C2 amended: once a ledger row exists for `(date, user)`, no later call
can return `delivered` or change the ledger; the short-circuit to
`already_received` (reporting the stored category) happens exactly when the
new metrics resolve to the same box type as the stored row. -/
theorem C2_amended_subsequent_calls (E : Engine) (l : Ledger) (u d : String)
    (m : Metrics) (hprev : hasKeyEntry l d u = true) :
    ((check_surprise_box E l u d m).1.status ≠ "delivered"
     ∧ (check_surprise_box E l u d m).2 = l)
  ∧ (is_user_rewarded l d u (_determine_box_type E m u d) = true →
      (check_surprise_box E l u d m).1.status = "already_received"
      ∧ (check_surprise_box E l u d m).1.reason =
          "User already received a " ++ _determine_box_type E m u d ++ " reward today") := by
  constructor
  · rcases hres : checkSurpriseBoxE E l u d m with e | ⟨dec, l2⟩
    · unfold check_surprise_box
      rw [hres]
      dsimp only
      exact ⟨by decide, rfl⟩
    · have hcase := checkE_ok_key_conflict E l u d m dec l2 hprev hres
      unfold check_surprise_box
      rw [hres]
      refine ⟨?_, hcase.2⟩
      rcases hcase.1 with h | h <;> · rw [h]; decide
  · intro hrew
    simp [check_surprise_box, checkSurpriseBoxE, hrew]

/-- C2 amended witness: the theorem applied where the stored row's box type
matches the resolved one, yielding `already_received`. -/
theorem C2_amended_witness :
    hasKeyEntry [⟨"2024-06-09", "u1", "boxA"⟩] "2024-06-09" "u1" = true
  ∧ (((check_surprise_box E2 [⟨"2024-06-09", "u1", "boxA"⟩] "u1" "2024-06-09" mA).1.status
        ≠ "delivered"
      ∧ (check_surprise_box E2 [⟨"2024-06-09", "u1", "boxA"⟩] "u1" "2024-06-09" mA).2 =
          [⟨"2024-06-09", "u1", "boxA"⟩])
     ∧ (is_user_rewarded [⟨"2024-06-09", "u1", "boxA"⟩] "2024-06-09" "u1"
          (_determine_box_type E2 mA "u1" "2024-06-09") = true →
        (check_surprise_box E2 [⟨"2024-06-09", "u1", "boxA"⟩] "u1" "2024-06-09" mA).1.status =
          "already_received"
        ∧ (check_surprise_box E2 [⟨"2024-06-09", "u1", "boxA"⟩] "u1" "2024-06-09" mA).1.reason =
            "User already received a " ++ _determine_box_type E2 mA "u1" "2024-06-09"
              ++ " reward today")) :=
  ⟨by decide,
    C2_amended_subsequent_calls E2 [⟨"2024-06-09", "u1", "boxA"⟩] "u1" "2024-06-09" mA
      (by decide)⟩

/-- C4 counterexample: under `cfg4` both rules are satisfied by `m4`; the
rule `ruleA` has the strictly larger leaf-comparison specificity (3 against
2), yet the resolver returns `ruleB`, because the source ranks rules by the
length of their `conditions` list (1 against 2), not by leaf count. -/
theorem C4_counterexample :
    _determine_box_type E4 m4 "u1" "2024-06-09" = "ruleB"
  ∧ _evaluate_rule (RuleData.dictConds
      ["login_streak>=1 and posts_created>=1 and comments_written>=1"]) m4 = true
  ∧ _evaluate_rule (RuleData.dictConds
      ["upvotes_received>=1", "quizzes_completed>=1"]) m4 = true
  ∧ spec_leaf_specificity (RuleData.dictConds
      ["login_streak>=1 and posts_created>=1 and comments_written>=1"]) = 3
  ∧ spec_leaf_specificity (RuleData.dictConds
      ["upvotes_received>=1", "quizzes_completed>=1"]) = 2 :=
  ⟨by decide, by decide, by decide, by decide, by decide⟩

theorem insertDesc_perm (x : String × Nat) (l : List (String × Nat)) :
    List.Perm (insertDesc x l) (x :: l) := by
  induction l with
  | nil => exact List.Perm.refl _
  | cons y ys ih =>
    unfold insertDesc
    by_cases h : y.2 > x.2
    · rw [if_pos h]
      exact (ih.cons y).trans (List.Perm.swap x y ys)
    · rw [if_neg h]

theorem sort_matched_desc_perm (l : List (String × Nat)) :
    List.Perm (sort_matched_desc l) l := by
  induction l with
  | nil => exact List.Perm.refl _
  | cons x xs ih => exact (insertDesc_perm x _).trans (ih.cons x)

theorem insertDesc_pairwise (x : String × Nat) (l : List (String × Nat))
    (h : l.Pairwise (fun a b => b.2 ≤ a.2)) :
    (insertDesc x l).Pairwise (fun a b => b.2 ≤ a.2) := by
  induction l with
  | nil => simp [insertDesc]
  | cons y ys ih =>
    rw [List.pairwise_cons] at h
    obtain ⟨hy, hys⟩ := h
    unfold insertDesc
    by_cases hgt : y.2 > x.2
    · rw [if_pos hgt]
      rw [List.pairwise_cons]
      refine ⟨?_, ih hys⟩
      intro z hz
      rcases List.mem_cons.mp ((insertDesc_perm x ys).mem_iff.mp hz) with rfl | hzys
      · omega
      · exact hy z hzys
    · rw [if_neg hgt]
      rw [List.pairwise_cons]
      refine ⟨?_, List.pairwise_cons.mpr ⟨hy, hys⟩⟩
      intro z hz
      rcases List.mem_cons.mp hz with rfl | hzys
      · omega
      · have := hy z hzys
        omega

theorem sort_matched_desc_pairwise (l : List (String × Nat)) :
    (sort_matched_desc l).Pairwise (fun a b => b.2 ≤ a.2) := by
  induction l with
  | nil => exact List.Pairwise.nil
  | cons x xs ih => exact insertDesc_pairwise x _ ih

theorem insertDesc_count (x a : String × Nat) (l : List (String × Nat)) :
    (insertDesc x l).count a = (x :: l).count a := by
  induction l with
  | nil => rfl
  | cons y ys ih =>
    unfold insertDesc
    by_cases h : y.2 > x.2
    · rw [if_pos h]
      simp only [List.count_cons, ih]
      omega
    · rw [if_neg h]

theorem sort_matched_desc_count (a : String × Nat) (l : List (String × Nat)) :
    (sort_matched_desc l).count a = l.count a := by
  induction l with
  | nil => rfl
  | cons x xs ih =>
    simp only [sort_matched_desc, insertDesc_count, List.count_cons, ih]

theorem all_eq_count_one_singleton (l : List (String × Nat)) (a : String × Nat)
    (hall : ∀ x ∈ l, x = a) (hcnt : l.count a = 1) : l = [a] := by
  induction l with
  | nil => simp at hcnt
  | cons x xs ih =>
    have hx : x = a := hall x (by simp)
    subst hx
    rw [List.count_cons_self] at hcnt
    have hxs0 : xs.count x = 0 := by omega
    cases hxs : xs with
    | nil => rfl
    | cons y ys =>
      exfalso
      have hy : y = x := hall y (by rw [hxs]; exact List.mem_cons_of_mem _ (List.mem_cons_self _ _))
      rw [hxs, hy, List.count_cons_self] at hxs0
      omega

/-- C4 amended: the resolver ranks each satisfied rule by the length of its
`conditions` list (1 for a bare condition) — the `num_conditions` of
`matched_rules` — and, when a single satisfied rule attains the strictly
maximal count, returns that rule's category. -/
theorem C4_amended_list_length_specificity (E : Engine) (m : Metrics) (u d : String)
    (p : String × Nat) (hmem : p ∈ matched_rules E.config m)
    (hcnt : (matched_rules E.config m).count p = 1)
    (hmax : ∀ q ∈ matched_rules E.config m, q = p ∨ q.2 < p.2) :
    _determine_box_type E m u d = p.1 := by
  simp only [_determine_box_type]
  set M := matched_rules E.config m with hM
  have hMne : M ≠ [] := List.ne_nil_of_mem hmem
  rw [if_neg (by simpa [List.isEmpty_iff] using hMne)]
  have hperm : List.Perm (sort_matched_desc M) M := sort_matched_desc_perm M
  have hSne : sort_matched_desc M ≠ [] := by
    intro hnil
    exact hMne (List.Perm.nil_eq (hnil ▸ hperm)).symm
  obtain ⟨s0, S, hS⟩ := List.exists_cons_of_ne_nil hSne
  rw [hS]
  have hpairs := sort_matched_desc_pairwise M
  rw [hS, List.pairwise_cons] at hpairs
  have hs0M : s0 ∈ M := hperm.mem_iff.mp (hS ▸ List.mem_cons_self s0 S)
  have hpS : p ∈ s0 :: S := hS ▸ hperm.mem_iff.mpr hmem
  have hple : p.2 ≤ s0.2 := by
    rcases List.mem_cons.mp hpS with rfl | hpS2
    · exact le_refl _
    · exact hpairs.1 p hpS2
  have hs0 : s0 = p := by
    rcases hmax s0 hs0M with h | h
    · exact h
    · omega
  have hall : ∀ x ∈ (s0 :: S).filter (fun r => r.2 == (List.headD (s0 :: S) ("", 0)).2), x = p := by
    intro x hx
    rw [List.mem_filter] at hx
    rcases hmax x (hperm.mem_iff.mp (hS ▸ hx.1)) with h | h
    · exact h
    · exfalso
      have hx2 : x.2 = s0.2 := by simpa [List.headD] using hx.2
      rw [hs0] at hx2
      omega
  have hmemF : p ∈ (s0 :: S).filter (fun r => r.2 == (List.headD (s0 :: S) ("", 0)).2) := by
    rw [List.mem_filter]
    refine ⟨hpS, ?_⟩
    simp [List.headD, hs0]
  have hcntF : ((s0 :: S).filter (fun r => r.2 == (List.headD (s0 :: S) ("", 0)).2)).count p = 1 := by
    have hle2 : ((s0 :: S).filter (fun r => r.2 == (List.headD (s0 :: S) ("", 0)).2)).count p ≤
        (s0 :: S).count p := (List.filter_sublist _).count_le p
    have hcS : (s0 :: S).count p = 1 := by
      rw [← hS, sort_matched_desc_count]
      exact hcnt
    have hge : 0 < ((s0 :: S).filter (fun r => r.2 == (List.headD (s0 :: S) ("", 0)).2)).count p :=
      List.count_pos_iff_mem.mpr hmemF
    omega
  have hfil := all_eq_count_one_singleton _ p hall hcntF
  rw [hfil]
  simp

/-- C4 amended witness: the theorem applied on `cfg4`, where `ruleB`'s count
(2 condition strings) is the unique maximum. -/
theorem C4_amended_witness :
    ("ruleB", 2) ∈ matched_rules E4.config m4
  ∧ (matched_rules E4.config m4).count ("ruleB", 2) = 1
  ∧ _determine_box_type E4 m4 "u2" "2024-06-10" = "ruleB" :=
  ⟨by decide, by decide,
    C4_amended_list_length_specificity E4 m4 "u2" "2024-06-10" ("ruleB", 2) (by decide)
      (by decide) (by decide)⟩

/-- C9 witness: applied at the concrete input of `run1_eval`, where the
commit step raises an `IntegrityError`. -/
theorem C9_unexpected_failure_witness :
    (check_surprise_box E1 L1 "u1" "2024-06-09" m1).1.status = "error"
  ∧ ((check_surprise_box E1 L1 "u1" "2024-06-09" m1).1.surprise_unlocked = false
     ∧ (check_surprise_box E1 L1 "u1" "2024-06-09" m1).1.reward_karma = none
     ∧ (check_surprise_box E1 L1 "u1" "2024-06-09" m1).1.box_type = none
     ∧ (check_surprise_box E1 L1 "u1" "2024-06-09" m1).1.box_name = none
     ∧ (check_surprise_box E1 L1 "u1" "2024-06-09" m1).1.rarity = none
     ∧ (check_surprise_box E1 L1 "u1" "2024-06-09" m1).2 = L1) :=
  ⟨by rw [run1_eval],
    (C9_unexpected_failure E1 L1 "u1" "2024-06-09" m1).1 (by rw [run1_eval])⟩

end Karma
